import Mathlib

/-!
Verification of the nitro-enclave core (`providers/nitro/nitro-enclave/src/nitro.rs`)
of tmkms-light against its natural-language specification.

The Rust code is shallowly embedded: every external effect (vsock connect,
secret-connection handshake, AWS KMS encrypt/decrypt, the NSM attestation
driver, state-holder I/O, serde, the framed-payload writes) is represented by
an explicit oracle outcome supplied in an environment record, and the control
flow of the source functions is reproduced over those outcomes.  Observable
actions (KMS calls, attestation requests, keypair zeroization, response
writes) are recorded in an event trace so that ordering and frame properties
can be stated.
-/

namespace Nitro

/-- Byte strings (`Vec<u8>` / `&[u8]`); each entry is meant to be `< 256`,
but no claim here depends on that bound. -/
abbrev Bytes := List Nat

/-! ## Constant-time equality (`subtle::ConstantTimeEq`)

`tendermint::node::Id` is a 20-byte array; its `ConstantTimeEq` instance
compares the underlying byte arrays: a length check followed by a fold that
ANDs the per-byte constant-time equalities.  `Choice` is modelled as a `Nat`
that is `0` or `1`; AND of choices is multiplication. -/

/-- `u8::ct_eq`: `1` when the bytes are equal, `0` otherwise. -/
def ct_eq_u8 (a b : Nat) : Nat := if a = b then 1 else 0

/-- `<[u8]>::ct_eq` from `subtle`: `Choice(0)` on length mismatch, otherwise
the AND-fold of the bytewise constant-time equalities. -/
def ct_eq_bytes (a b : Bytes) : Nat :=
  if a.length = b.length then
    (List.zip a b).foldl (fun acc p => acc * ct_eq_u8 p.1 p.2) 1
  else 0

lemma ct_eq_fold_aux (l : List (Nat × Nat)) (acc : Nat) :
    l.foldl (fun acc p => acc * ct_eq_u8 p.1 p.2) acc =
      if ∀ p ∈ l, p.1 = p.2 then acc else 0 := by
  induction l generalizing acc with
  | nil => simp
  | cons p l ih =>
    rw [List.foldl_cons, ih]
    simp only [ct_eq_u8]
    by_cases hp : p.1 = p.2
    · by_cases hl : ∀ q ∈ l, q.1 = q.2
      · have hcons : ∀ q ∈ p :: l, q.1 = q.2 := by
          intro q hq
          rcases List.mem_cons.mp hq with h | h
          · exact h ▸ hp
          · exact hl q h
        rw [if_pos hp, mul_one, if_pos hl, if_pos hcons]
      · have hcons : ¬ ∀ q ∈ p :: l, q.1 = q.2 :=
          fun h => hl fun q hq => h q (List.mem_cons_of_mem p hq)
        rw [if_pos hp, mul_one, if_neg hl, if_neg hcons]
    · have hcons : ¬ ∀ q ∈ p :: l, q.1 = q.2 :=
        fun h => hp (h p (List.mem_cons_self p l))
      rw [if_neg hp, mul_zero, if_neg hcons]
      split <;> rfl

lemma zip_pointwise_iff : ∀ (a b : Bytes), a.length = b.length →
    ((∀ p ∈ List.zip a b, p.1 = p.2) ↔ a = b)
  | [], [], _ => by simp
  | [], _ :: _, h => by simp at h
  | _ :: _, [], h => by simp at h
  | x :: xs, y :: ys, h => by
    simp only [List.length_cons, Nat.add_right_cancel_iff] at h
    simp only [List.zip_cons_cons, List.mem_cons, List.cons.injEq, forall_eq_or_imp]
    rw [zip_pointwise_iff xs ys h]

/-- `ct_eq_bytes` is the indicator of list equality. -/
lemma ct_eq_bytes_eq (a b : Bytes) : ct_eq_bytes a b = if a = b then 1 else 0 := by
  unfold ct_eq_bytes
  by_cases hlen : a.length = b.length
  · rw [if_pos hlen, ct_eq_fold_aux]
    by_cases h : a = b
    · rw [if_pos ((zip_pointwise_iff a b hlen).mpr h), if_pos h]
    · rw [if_neg (fun hz => h ((zip_pointwise_iff a b hlen).mp hz)), if_neg h]
  · rw [if_neg hlen, if_neg (fun h => hlen (by rw [h]))]

lemma ct_eq_bytes_ne {a b : Bytes} (h : a ≠ b) : ct_eq_bytes a b = 0 := by
  rw [ct_eq_bytes_eq, if_neg h]

/-! ## Connections and the secure-channel establisher -/

/-- `Box<dyn Connection>`: either a post-handshake `SecretConnection`
(carrying the peer id derived from the remote public key) or a
`PlainConnection` with no identity at all. -/
inductive Conn
  | secure (remotePeerId : Bytes)
  | plain
  deriving DecidableEq, Repr

/-- Outcomes of the external effects of one connection attempt:
whether `VsockStream::connect` succeeds, whether the
`SecretConnection::new` handshake succeeds, and the peer id derived from
the remote public key when it does. -/
structure SecretConnEnv where
  socketOk : Bool
  handshakeOk : Bool
  remotePeerId : Bytes
  deriving DecidableEq, Repr

/-- `get_secret_connection` (nitro.rs lines 29-66): connect the vsock socket,
run the secret-connection handshake, and if an expected peer id is
configured, reject the connection when the constant-time comparison with the
handshake-derived peer id yields zero. -/
def get_secret_connection (env : SecretConnEnv) (_identity_key : Bytes)
    (peer_id : Option Bytes) : Except Unit Conn :=
  if env.socketOk = false then .error ()
  else if env.handshakeOk = false then .error ()
  else
    let actual_peer_id := env.remotePeerId
    match peer_id with
    | some expected_peer_id =>
      if ct_eq_bytes expected_peer_id actual_peer_id = 0 then .error ()
      else .ok (Conn.secure actual_peer_id)
    | none => .ok (Conn.secure actual_peer_id)

/-- AWS credential bundle carried in the configs. -/
structure AwsCredentials where
  aws_key_id : String
  aws_secret_key : String
  aws_session_token : String
  deriving DecidableEq, Repr

/-- `NitroConfig` (the `Start` request payload). -/
structure NitroConfig where
  chain_id : String
  max_height : Option Nat
  enclave_tendermint_conn : Nat
  peer_id : Option Bytes
  sealed_consensus_key : Bytes
  sealed_id_key : Option Bytes
  aws_region : String
  credentials : AwsCredentials
  enclave_state_port : Nat
  deriving DecidableEq, Repr

/-- One iteration of the body of `get_connection` (nitro.rs lines 73-90):
with an identity keypair it runs `get_secret_connection`; without one it
connects the vsock socket directly and wraps it in a `PlainConnection`. -/
def attempt_connection (config : NitroConfig) (id_keypair : Option Bytes)
    (env : SecretConnEnv) : Except Unit Conn :=
  match id_keypair with
  | some ikp => get_secret_connection env ikp config.peer_id
  | none => if env.socketOk then .ok Conn.plain else .error ()

/-- Events recorded by the session-driver / connection-retry loop. -/
inductive DriverEv
  | sleepSec (n : Nat)
  | enterRunning
  | sessionErrorLogged
  deriving DecidableEq, Repr

/-- `get_connection` (nitro.rs lines 69-98), fuel-indexed: attempt `i` uses
the oracle outcomes `envs i`; on failure the loop sleeps 1 second and
retries; it can only exit by returning a successfully established
connection.  `none` means the fuel ran out while still retrying. -/
def get_connection_fuel (config : NitroConfig) (id_keypair : Option Bytes)
    (envs : Nat → SecretConnEnv) : Nat → Nat → List DriverEv × Option Conn
  | _, 0 => ([], none)
  | i, fuel + 1 =>
    match attempt_connection config id_keypair (envs i) with
    | .ok conn => ([], some conn)
    | .error _ =>
      let rest := get_connection_fuel config id_keypair envs (i + 1) fuel
      (DriverEv.sleepSec 1 :: rest.1, rest.2)

/-! ## Base64 (`subtle_encoding::base64::encode`, standard alphabet with
padding) and UTF-8 bytes of a string (`str::as_bytes`). -/

/-- Character of the standard base64 alphabet at index `n < 64`. -/
def base64_char (n : Nat) : Char :=
  if n < 26 then Char.ofNat (65 + n)
  else if n < 52 then Char.ofNat (97 + (n - 26))
  else if n < 62 then Char.ofNat (48 + (n - 52))
  else if n = 62 then '+'
  else '/'

/-- Standard base64 encoding of a byte string, with `=` padding. -/
def base64_chars : Bytes → List Char
  | [] => []
  | [a] => [base64_char (a / 4), base64_char (a % 4 * 16), '=', '=']
  | [a, b] => [base64_char (a / 4), base64_char (a % 4 * 16 + b / 16),
               base64_char (b % 16 * 4), '=']
  | a :: b :: c :: rest =>
    base64_char (a / 4) :: base64_char (a % 4 * 16 + b / 16) ::
      base64_char (b % 16 * 4 + c / 64) :: base64_char (c % 64) ::
        base64_chars rest

/-- `String::from_utf8(subtle_encoding::base64::encode(bytes))`: base64
output is always ASCII, so the UTF-8 decoding step never fails. -/
def base64_string (bytes : Bytes) : String := String.mk (base64_chars bytes)

/-- UTF-8 encoding of one character. -/
def utf8_encode_char (c : Char) : Bytes :=
  let v := c.toNat
  if v < 128 then [v]
  else if v < 2048 then [192 + v / 64, 128 + v % 64]
  else if v < 65536 then [224 + v / 4096, 128 + v / 64 % 64, 128 + v % 64]
  else [240 + v / 262144, 128 + v / 4096 % 64, 128 + v / 64 % 64, 128 + v % 64]

/-- `str::as_bytes`: the UTF-8 bytes of a string. -/
def string_utf8 (s : String) : Bytes :=
  s.data.foldr (fun c acc => utf8_encode_char c ++ acc) []

/-! ## The entry dispatcher (`entry`, nitro.rs lines 101-218)

`entry` reads one framed request, dispatches on its decoded form, and either
runs the keygen flow (one `Response` written back) or unseals the keys and
enters the session-driver loop.  External effects are oracle outcomes in
`EntryEnv`; observable actions are recorded as `Ev` events. -/

/-- `NitroKeygenConfig` (the `Keygen` request payload). -/
structure NitroKeygenConfig where
  aws_region : String
  credentials : AwsCredentials
  kms_key_id : String
  deriving DecidableEq, Repr

/-- `NitroRequest`: the tagged request envelope. -/
inductive NitroRequest
  | Start (config : NitroConfig)
  | Keygen (config : NitroKeygenConfig)
  deriving DecidableEq, Repr

/-- Kinds of `tmkms_light::error::Error` produced by `entry`. -/
inductive ErrorKind
  | accessError
  | invalidKeyError
  | ioError (msg : String)
  | serializationError
  deriving DecidableEq, Repr

/-- A freshly generated ed25519 keypair (`SigningKey::new(OsRng)` plus its
`verification_key()`); the randomness source and the secret-to-public
derivation are external, so the pair is an oracle outcome. -/
structure KeyPair where
  secret : Bytes
  public : Bytes
  deriving DecidableEq, Repr

/-- `NitroKeygenResponse`. -/
structure NitroKeygenResponse where
  encrypted_secret : Bytes
  public_key : Bytes
  attestation_doc : Bytes
  deriving DecidableEq, Repr

/-- `NitroResponse = Result<NitroKeygenResponse, String>`. -/
abbrev NitroResponse := Except String NitroKeygenResponse

/-- `aws_nitro_enclaves_nsm_api::api::Request::Attestation` as built by the
keygen arm. -/
structure NsmAttestationRequest where
  user_data : Option String
  nonce : Option Bytes
  public_key : Option Bytes
  deriving DecidableEq, Repr

/-- The NSM driver's reply: an attestation document, or any other response
kind. -/
inductive NsmResponse
  | Attestation (document : Bytes)
  | Other
  deriving DecidableEq, Repr

/-- Opaque persisted session state handed back by the state holder. -/
structure PersistedState where
  raw : Nat
  deriving DecidableEq, Repr

/-- Observable events of `entry`. -/
inductive Ev
  | kms_decrypt_call (ciphertext : Bytes)
  | kms_encrypt_call (plaintext : Bytes)
  | attestation_request (req : NsmAttestationRequest)
  | zeroize_keypair
  | write_response (payload : String)
  | nsm_exit_call
  deriving DecidableEq, Repr

/-- Oracle outcomes for one invocation of `entry`. -/
structure EntryEnv where
  /-- `read_u16_payload` on the host stream. -/
  read_payload : Except ErrorKind Bytes
  /-- `serde_json::from_slice::<NitroRequest>`. -/
  decode : Bytes → Except String NitroRequest
  /-- `aws_ne_sys::kms_decrypt region key_id secret_key session_token ciphertext`. -/
  kms_decrypt : String → String → String → String → Bytes → Except Unit Bytes
  /-- `state::StateHolder::new port` (an opaque holder handle on success). -/
  state_holder_new : Nat → Except Unit Nat
  /-- `StateHolder::load_state` on the given holder. -/
  load_state : Nat → Except Unit PersistedState
  /-- `SigningKey::new(OsRng)` and its verification key. -/
  gen_keypair : KeyPair
  /-- `aws_ne_sys::kms_encrypt region key_id secret_key session_token kms_key_id plaintext`
  (the error is already formatted, as by `format!`). -/
  kms_encrypt : String → String → String → String → String → Bytes → Except String Bytes
  /-- `nsm_process_request` on the attestation request. -/
  nsm_process_request : NsmAttestationRequest → NsmResponse
  /-- `serde_json::to_string` on the response envelope. -/
  serialize_response : NitroResponse → Except Unit String
  /-- whether `write_u16_payload` of the response succeeds. -/
  write_payload_ok : Bool

instance {ε α : Type} [DecidableEq ε] [DecidableEq α] : DecidableEq (Except ε α) :=
  fun a b =>
    match a, b with
    | .ok a, .ok b => decidable_of_iff (a = b) (by simp)
    | .ok _, .error _ => isFalse (by simp)
    | .error _, .ok _ => isFalse (by simp)
    | .error e, .error f => decidable_of_iff (e = f) (by simp)

/-- How `entry` ends: an actual return (`Ok(())` or an error), or entry into
the non-terminating session-driver region with the values it owns there. -/
inductive EntryResult
  | returned (r : Except ErrorKind Unit)
  | entersDriver (config : NitroConfig) (id_keypair : Option Bytes)
      (secret : Bytes) (state : PersistedState)
  deriving DecidableEq, Repr

/-- `ed25519_consensus::SigningKey::try_from(&[u8])`: succeeds exactly on
32-byte inputs (every 32-byte string is a valid signing key). -/
def signing_key_try_from (bytes : Bytes) : Except Unit Bytes :=
  if bytes.length = 32 then .ok bytes else .error ()

/-- The `kms_decrypt` call for the sealed consensus key (nitro.rs 108-115). -/
def decrypt_consensus (env : EntryEnv) (config : NitroConfig) : Except Unit Bytes :=
  env.kms_decrypt config.aws_region config.credentials.aws_key_id
    config.credentials.aws_secret_key config.credentials.aws_session_token
    config.sealed_consensus_key

/-- The `kms_decrypt` call for the sealed identity key (nitro.rs 120-129). -/
def decrypt_id (env : EntryEnv) (config : NitroConfig) (ciphertext : Bytes) :
    Except Unit Bytes :=
  env.kms_decrypt config.aws_region config.credentials.aws_key_id
    config.credentials.aws_secret_key config.credentials.aws_session_token
    ciphertext

/-- Tail of the `Start` arm after both unseals (nitro.rs 136-158): build the
state holder, load the initial state, and enter the session-driver loop. -/
def start_after_unseal (env : EntryEnv) (config : NitroConfig) (secret : Bytes)
    (id_keypair : Option Bytes) (tr : List Ev) : List Ev × EntryResult :=
  match env.state_holder_new config.enclave_state_port with
  | .error _ => (tr, .returned (.error (.ioError "failed get state connection")))
  | .ok holder =>
    match env.load_state holder with
    | .error _ => (tr, .returned (.error (.ioError "failed to load initial state")))
    | .ok state => (tr, .entersDriver config id_keypair secret state)

/-- The `Start` arm of `entry` (nitro.rs 106-159): unseal the consensus key
(access error on oracle failure, invalid-key error on bad bytes), optionally
unseal the identity key the same way, then proceed to the driver. -/
def start_flow (env : EntryEnv) (config : NitroConfig) : List Ev × EntryResult :=
  let tr1 := [Ev.kms_decrypt_call config.sealed_consensus_key]
  match decrypt_consensus env config with
  | .error _ => (tr1, .returned (.error .accessError))
  | .ok key_bytes =>
    match signing_key_try_from key_bytes with
    | .error _ => (tr1, .returned (.error .invalidKeyError))
    | .ok secret =>
      match config.sealed_id_key with
      | some ciphertext =>
        let tr2 := tr1 ++ [Ev.kms_decrypt_call ciphertext]
        match decrypt_id env config ciphertext with
        | .error _ => (tr2, .returned (.error .accessError))
        | .ok id_key_bytes =>
          match signing_key_try_from id_key_bytes with
          | .error _ => (tr2, .returned (.error .invalidKeyError))
          | .ok id_secret => start_after_unseal env config secret (some id_secret) tr2
      | none => start_after_unseal env config secret none tr1

/-- The user-data claim string of the keygen arm (nitro.rs 170-173):
`format!("\x7b\"pubkey\":\"\x7b\x7d\",\"key_id\":\"\x7b\x7d\"\x7d", pubkeyb64, keyidb64)`. -/
def keygen_claim (public : Bytes) (kms_key_id : String) : String :=
  "\x7b\"pubkey\":\"" ++ base64_string public ++ "\",\"key_id\":\"" ++
    base64_string (string_utf8 kms_key_id) ++ "\"\x7d"

/-- The attestation request built in the keygen arm (nitro.rs 184-193):
user data is the claim, no nonce, no public key. -/
def keygen_att_request (env : EntryEnv) (kc : NitroKeygenConfig) :
    NsmAttestationRequest :=
  { user_data := some (keygen_claim env.gen_keypair.public kc.kms_key_id)
    nonce := none
    public_key := none }

/-- The `kms_encrypt` call of the keygen arm (nitro.rs 175-182): seal the
freshly generated secret under the requested KMS key. -/
def keygen_kms_result (env : EntryEnv) (kc : NitroKeygenConfig) :
    Except String Bytes :=
  env.kms_encrypt kc.aws_region kc.credentials.aws_key_id
    kc.credentials.aws_secret_key kc.credentials.aws_session_token
    kc.kms_key_id env.gen_keypair.secret

/-- The encrypt-then-attest phase of the keygen arm (nitro.rs 175-205):
seal the fresh secret under KMS; on success request an attestation; the
response envelope is a success exactly when both oracles delivered. -/
def keygen_encrypt_attest (env : EntryEnv) (kc : NitroKeygenConfig) :
    List Ev × NitroResponse :=
  let keypair := env.gen_keypair
  match keygen_kms_result env kc with
  | .ok encrypted_secret =>
    let req := keygen_att_request env kc
    match env.nsm_process_request req with
    | .Attestation document =>
      ([Ev.kms_encrypt_call keypair.secret, Ev.attestation_request req],
        .ok { encrypted_secret := encrypted_secret
              public_key := keypair.public
              attestation_doc := document })
    | .Other =>
      ([Ev.kms_encrypt_call keypair.secret, Ev.attestation_request req],
        .error "failed to obtain an attestation document")
  | .error e => ([Ev.kms_encrypt_call keypair.secret], .error e)

/-- The `Keygen` arm of `entry` (nitro.rs 160-210): compute the response,
zeroize the keypair, serialize and write exactly one response envelope. -/
def keygen_flow (env : EntryEnv) (kc : NitroKeygenConfig) : List Ev × EntryResult :=
  let step := keygen_encrypt_attest env kc
  let tr := step.1 ++ [Ev.zeroize_keypair]
  match env.serialize_response step.2 with
  | .error _ => (tr, .returned (.error .serializationError))
  | .ok json =>
    let tr := tr ++ [Ev.write_response json]
    if env.write_payload_ok then (tr, .returned (.ok ()))
    else (tr, .returned (.error (.ioError "failed to send keypair response")))

/-- `entry` (nitro.rs 101-218): read one framed payload, decode it, dispatch;
`nsm_exit` runs only on the paths that fall through to the end of the match
(keygen success and decode failure — the `Start` arm never returns). -/
def entry (env : EntryEnv) : List Ev × EntryResult :=
  match env.read_payload with
  | .error e => ([], .returned (.error e))
  | .ok json_raw =>
    let step :=
      match env.decode json_raw with
      | .ok (.Start config) => start_flow env config
      | .ok (.Keygen kc) => keygen_flow env kc
      | .error _ => ([], .returned (.ok ()))
    match step.2 with
    | .returned (Except.ok _) => (step.1 ++ [Ev.nsm_exit_call], step.2)
    | _ => step

/-! ## The session driver loop (nitro.rs 141-158) as a step machine

The `Start` arm, once the keys are unsealed, runs
`get_connection` / `Session::request_loop` in an unbounded loop.  The loop
is modelled as a two-state machine (`connecting` for the retry loop inside
`get_connection`, `running` for `request_loop`); `done` is the state an
actual return from `entry` would reach, so "the loop never returns" is the
statement that `done` is unreachable from the loop states. -/

/-- Control state of the session driver. -/
inductive DriverState
  | connecting
  | running
  | done (r : Except ErrorKind Unit)
  deriving DecidableEq, Repr

/-- Oracle outcomes consumed by one driver step: the result of a connection
attempt (used in `connecting`) and of `Session::request_loop` (used in
`running`). -/
structure DriverEnvStep where
  attempt : Except Unit Conn
  sessionResult : Except String Unit

/-- One step of the driver: in `connecting`, a failed attempt sleeps 1 s and
retries, a successful one enters `running`; in `running`, `request_loop`
ending (with a logged error or not) goes back to `connecting`
(nitro.rs 152-158).  No step ever produces `done`. -/
def driver_step : DriverState → DriverEnvStep → DriverState × List DriverEv
  | .connecting, e =>
    match e.attempt with
    | .error _ => (.connecting, [.sleepSec 1])
    | .ok _ => (.running, [.enterRunning])
  | .running, e =>
    (.connecting,
      match e.sessionResult with
      | .error _ => [.sessionErrorLogged]
      | .ok _ => [])
  | .done r, _ => (.done r, [])

/-- Run the driver for `n` steps, collecting the emitted events. -/
def driver_run : Nat → DriverState → (Nat → DriverEnvStep) → DriverState × List DriverEv
  | 0, s, _ => (s, [])
  | n + 1, s, envs =>
    let step := driver_step s (envs 0)
    let rest := driver_run n step.1 (fun i => envs (i + 1))
    (rest.1, step.2 ++ rest.2)

/-! ## The session object (spec-modelled)

`tmkms_light::session::Session` lives in the `tmkms-light` crate of this
repository, outside the provided sources; it is modelled from the spec. -/

/-- `tmkms_light::config::validator::ValidatorConfig` as built in
nitro.rs 143-146. -/
structure ValidatorConfig where
  chain_id : String
  max_height : Option Nat
  deriving DecidableEq, Repr

/-- Modelled from the spec: `tmkms_light::session::Session` (not under the
provided sources) owns the validator config, the channel, the signing key,
and the persisted session state ("loaded once at session start and
thereafter owned and mutated only by the opaque Session component"). -/
structure Session where
  config : ValidatorConfig
  connection : Conn
  signing_key : Bytes
  state : PersistedState
  state_holder : Nat
  deriving DecidableEq, Repr

/-- Modelled from the spec: `Session::new` (not under the provided sources)
stores the supplied config, connection, key, state and state holder
(nitro.rs 142-151). -/
def Session.new (config : ValidatorConfig) (connection : Conn) (secret : Bytes)
    (state : PersistedState) (state_holder : Nat) : Session :=
  { config := config, connection := connection, signing_key := secret,
    state := state, state_holder := state_holder }

/-- Modelled from the spec: `Session::reset_connection` (not under the
provided sources) replaces the channel "wholesale (not mutated) on
reconnect", leaving every other component of the session untouched. -/
def Session.reset_connection (s : Session) (conn : Conn) : Session :=
  { s with connection := conn }

/-- One iteration of the reconnect loop in the `Start` arm
(nitro.rs 152-158): after `request_loop` ends, `get_connection` is re-run
with the same config and identity keypair and the resulting channel replaces
the session's connection; `none` when the fuel ran out before a connection
was obtained. -/
def start_loop_iter (config : NitroConfig) (id_keypair : Option Bytes)
    (session : Session) (envs : Nat → SecretConnEnv) (fuel : Nat) :
    Option Session :=
  match (get_connection_fuel config id_keypair envs 0 fuel).2 with
  | some conn => some (session.reset_connection conn)
  | none => none

/-! ## Sample data used by the witnesses -/

def sampleCredentials : AwsCredentials :=
  { aws_key_id := "AKIA", aws_secret_key := "SECRET", aws_session_token := "TOKEN" }

def sampleConfig : NitroConfig :=
  { chain_id := "test-chain"
    max_height := none
    enclave_tendermint_conn := 5050
    peer_id := some [1, 2, 3]
    sealed_consensus_key := [9, 9]
    sealed_id_key := none
    aws_region := "us-east-1"
    credentials := sampleCredentials
    enclave_state_port := 5555 }

def sampleKeygenConfig : NitroKeygenConfig :=
  { aws_region := "us-east-1", credentials := sampleCredentials, kms_key_id := "abc" }

def sampleEnv : EntryEnv :=
  { read_payload := .ok [123]
    decode := fun _ => .ok (.Keygen sampleKeygenConfig)
    kms_decrypt := fun _ _ _ _ _ => .ok (List.replicate 32 0)
    state_holder_new := fun _ => .ok 0
    load_state := fun _ => .ok ⟨0⟩
    gen_keypair := { secret := List.replicate 32 1, public := List.replicate 32 2 }
    kms_encrypt := fun _ _ _ _ _ _ => .ok [7, 7]
    nsm_process_request := fun _ => .Attestation [4, 2]
    serialize_response := fun _ => .ok "resp"
    write_payload_ok := true }

def sampleEnvStart : EntryEnv :=
  { sampleEnv with decode := fun _ => .ok (.Start sampleConfig) }

def sampleEnvBadDecode : EntryEnv :=
  { sampleEnv with decode := fun _ => .error "parse error" }

def sampleSession : Session :=
  Session.new { chain_id := "test-chain", max_height := none } Conn.plain
    (List.replicate 32 0) ⟨0⟩ 0

/-- Attempt outcomes with two socket failures and then a working socket. -/
def sampleRetryEnvs : Nat → SecretConnEnv := fun i =>
  if i < 2 then { socketOk := false, handshakeOk := false, remotePeerId := [] }
  else { socketOk := true, handshakeOk := true, remotePeerId := [1, 2, 3] }

/-- Driver-step outcomes built over `sampleRetryEnvs`. -/
def sampleDriverEnvs : Nat → DriverEnvStep := fun i =>
  { attempt := attempt_connection sampleConfig none (sampleRetryEnvs i)
    sessionResult := .ok () }

/-- Whether an `Except` value is an error. -/
def except_failed {ε α : Type} : Except ε α → Bool
  | .ok _ => false
  | .error _ => true

/-- Whether an event is a framed response write. -/
def is_write_ev : Ev → Bool
  | .write_response _ => true
  | _ => false

/-! ## Theorems for the claims -/

/-- Claim C1: for every configured expected peer identity and every
handshake-derived actual peer identity that differ in at least one byte,
`get_secret_connection` fails that connection attempt; the mismatch check
treats a zero result of the constant-time equality as not equal. -/
theorem claim_C1 (env : SecretConnEnv) (identity_key expected : Bytes)
    (hsock : env.socketOk = true) (hhs : env.handshakeOk = true)
    (hlen : expected.length = env.remotePeerId.length)
    (hne : expected ≠ env.remotePeerId) :
    ct_eq_bytes expected env.remotePeerId = 0 ∧
    get_secret_connection env identity_key (some expected) = .error () := by
  refine ⟨ct_eq_bytes_ne hne, ?_⟩
  simp [get_secret_connection, hsock, hhs, ct_eq_bytes_ne hne]

/-- Witness for C1 at a concrete mismatching pair of identities. -/
theorem claim_C1_witness :
    ct_eq_bytes [0, 0, 0] [0, 0, 1] = 0 ∧
    get_secret_connection
      { socketOk := true, handshakeOk := true, remotePeerId := [0, 0, 1] }
      [9] (some [0, 0, 0]) = .error () :=
  claim_C1 { socketOk := true, handshakeOk := true, remotePeerId := [0, 0, 1] }
    [9] [0, 0, 0] rfl rfl rfl (by decide)

/-- Claim C9: a host payload that does not decode as a `NitroRequest` leads
to no response write, no KMS call, and a clean `Ok(())` return after the
decode failure is logged. -/
theorem claim_C9 (env : EntryEnv) (raw : Bytes) (msg : String)
    (hread : env.read_payload = .ok raw)
    (hdec : env.decode raw = .error msg) :
    entry env = ([Ev.nsm_exit_call], .returned (.ok ())) ∧
    (∀ s, Ev.write_response s ∉ (entry env).1) ∧
    (∀ b, Ev.kms_decrypt_call b ∉ (entry env).1 ∧
      Ev.kms_encrypt_call b ∉ (entry env).1) := by
  have h : entry env = ([Ev.nsm_exit_call], .returned (.ok ())) := by
    simp only [entry, hread, hdec]
    rfl
  refine ⟨h, ?_, ?_⟩ <;> simp [h]

/-- Witness for C9 at a concrete undecodable payload. -/
theorem claim_C9_witness :
    entry sampleEnvBadDecode = ([Ev.nsm_exit_call], .returned (.ok ())) :=
  (claim_C9 sampleEnvBadDecode [123] "parse error" rfl rfl).1

/-- Claim C5: on a session error the reconnect replaces only the session's
connection (wholesale, via `reset_connection`); the signing key, the config,
the persisted state and the state holder of the session are unchanged, and
the reconnect uses the same config and identity keypair. -/
theorem claim_C5 (config : NitroConfig) (id_keypair : Option Bytes)
    (session : Session) (envs : Nat → SecretConnEnv) (fuel : Nat) (conn : Conn)
    (hconn : (get_connection_fuel config id_keypair envs 0 fuel).2 = some conn) :
    start_loop_iter config id_keypair session envs fuel =
      some (session.reset_connection conn) ∧
    (session.reset_connection conn).connection = conn ∧
    (session.reset_connection conn).signing_key = session.signing_key ∧
    (session.reset_connection conn).config = session.config ∧
    (session.reset_connection conn).state = session.state ∧
    (session.reset_connection conn).state_holder = session.state_holder := by
  unfold start_loop_iter
  rw [hconn]
  exact ⟨rfl, rfl, rfl, rfl, rfl, rfl⟩

/-- Witness for C5 at a concrete reconnect. -/
theorem claim_C5_witness :
    start_loop_iter sampleConfig none sampleSession
      (fun _ => { socketOk := true, handshakeOk := true, remotePeerId := [1, 2, 3] }) 1 =
      some (sampleSession.reset_connection Conn.plain) :=
  (claim_C5 sampleConfig none sampleSession
    (fun _ => { socketOk := true, handshakeOk := true, remotePeerId := [1, 2, 3] })
    1 Conn.plain rfl).1

/-- Claim C10: with no identity keypair, `get_connection` never inspects the
configured expected peer fingerprint — the run is identical for every
`peer_id` value — and any connection it returns is a `Plain` connection
(no handshake, no identity check). -/
theorem claim_C10 (config : NitroConfig) (p : Option Bytes)
    (envs : Nat → SecretConnEnv) (i fuel : Nat) :
    get_connection_fuel { config with peer_id := p } none envs i fuel =
      get_connection_fuel config none envs i fuel ∧
    ∀ c, (get_connection_fuel config none envs i fuel).2 = some c →
      c = Conn.plain := by
  induction fuel generalizing i with
  | zero =>
    refine ⟨rfl, ?_⟩
    intro c h
    simp [get_connection_fuel] at h
  | succ n ih =>
    constructor
    · simp only [get_connection_fuel, attempt_connection]
      cases h : (envs i).socketOk <;> simp [h, (ih (i + 1)).1]
    · intro c hc
      simp only [get_connection_fuel, attempt_connection] at hc
      cases h : (envs i).socketOk
      · rw [h] at hc
        simp at hc
        exact (ih (i + 1)).2 c hc
      · rw [h] at hc
        simp at hc
        exact hc.symm

/-- Witness for C10: at a concrete config with a configured `peer_id`, the
run equals the run with `peer_id` removed, and the returned connection is
plain. -/
theorem claim_C10_witness :
    get_connection_fuel { sampleConfig with peer_id := none } none
        (fun _ => { socketOk := true, handshakeOk := true, remotePeerId := [5] }) 0 1 =
      get_connection_fuel sampleConfig none
        (fun _ => { socketOk := true, handshakeOk := true, remotePeerId := [5] }) 0 1 ∧
    (get_connection_fuel sampleConfig none
        (fun _ => { socketOk := true, handshakeOk := true, remotePeerId := [5] }) 0 1).2 =
      some Conn.plain ∧
    Conn.plain = Conn.plain :=
  ⟨(claim_C10 sampleConfig none
      (fun _ => { socketOk := true, handshakeOk := true, remotePeerId := [5] }) 0 1).1,
    by decide,
    (claim_C10 sampleConfig none
      (fun _ => { socketOk := true, handshakeOk := true, remotePeerId := [5] }) 0 1).2
      Conn.plain (by decide)⟩

/-- One-step unfolding of `get_connection_fuel` at positive fuel. -/
lemma get_connection_fuel_succ (config : NitroConfig) (idk : Option Bytes)
    (envs : Nat → SecretConnEnv) (i fuel : Nat) :
    get_connection_fuel config idk envs i (fuel + 1) =
      match attempt_connection config idk (envs i) with
      | .ok conn => ([], some conn)
      | .error _ =>
        let rest := get_connection_fuel config idk envs (i + 1) fuel
        (DriverEv.sleepSec 1 :: rest.1, rest.2) := rfl

/-- If the first successful attempt (counting from `i`) is attempt `i + N`,
`get_connection` returns that channel after `N` one-second sleeps. -/
lemma get_connection_fuel_success (config : NitroConfig) (idk : Option Bytes)
    (envs : Nat → SecretConnEnv) (c : Conn) :
    ∀ N i, (∀ j, j < N → attempt_connection config idk (envs (i + j)) = .error ()) →
      attempt_connection config idk (envs (i + N)) = .ok c →
      get_connection_fuel config idk envs i (N + 1) =
        (List.replicate N (DriverEv.sleepSec 1), some c) := by
  intro N
  induction N with
  | zero =>
    intro i _ hsucc
    simp only [Nat.add_zero] at hsucc
    rw [get_connection_fuel_succ, hsucc]
    rfl
  | succ N ih =>
    intro i hfail hsucc
    have h0 : attempt_connection config idk (envs i) = .error () := by
      simpa using hfail 0 (Nat.succ_pos N)
    have hfail' : ∀ j, j < N →
        attempt_connection config idk (envs (i + 1 + j)) = .error () := by
      intro j hj
      have := hfail (j + 1) (Nat.succ_lt_succ hj)
      rwa [show i + (j + 1) = i + 1 + j by omega] at this
    have hsucc' : attempt_connection config idk (envs (i + 1 + N)) = .ok c := by
      rwa [show i + (N + 1) = i + 1 + N by omega] at hsucc
    have ih' := ih (i + 1) hfail' hsucc'
    rw [get_connection_fuel_succ, h0]
    simp only [ih', List.replicate_succ]

/-- One-step unfolding of `driver_run` at a positive step count. -/
lemma driver_run_succ (n : Nat) (s : DriverState) (envs : Nat → DriverEnvStep) :
    driver_run (n + 1) s envs =
      ((driver_run n (driver_step s (envs 0)).1 (fun i => envs (i + 1))).1,
        (driver_step s (envs 0)).2 ++
          (driver_run n (driver_step s (envs 0)).1 (fun i => envs (i + 1))).2) := rfl

/-- A connecting phase whose first successful attempt is attempt `N` enters
`running` exactly at step `N + 1`, with `N` sleeps before the single
`enterRunning` event. -/
lemma driver_run_connect_phase :
    ∀ (N : Nat) (denvs : Nat → DriverEnvStep) (c : Conn),
      (∀ j, j < N → (denvs j).attempt = .error ()) →
      (denvs N).attempt = .ok c →
      driver_run (N + 1) DriverState.connecting denvs =
        (DriverState.running,
          List.replicate N (DriverEv.sleepSec 1) ++ [DriverEv.enterRunning]) := by
  intro N
  induction N with
  | zero =>
    intro denvs c _ hsucc
    rw [driver_run_succ]
    simp [driver_step, hsucc, driver_run]
  | succ N ih =>
    intro denvs c hfail hsucc
    have h0 : (denvs 0).attempt = .error () := hfail 0 (Nat.succ_pos N)
    have ih' := ih (fun i => denvs (i + 1)) c
      (fun j hj => hfail (j + 1) (Nat.succ_lt_succ hj)) hsucc
    rw [driver_run_succ]
    simp [driver_step, h0, ih', List.replicate_succ]

/-- Claim C3: `get_connection` has no failure exit; if the first successful
connection attempt is attempt `N + 1`, it returns that channel after exactly
`N` one-second sleeps, and the session driver then enters `running` exactly
once. -/
theorem claim_C3 (config : NitroConfig) (idk : Option Bytes)
    (envs : Nat → SecretConnEnv) (denvs : Nat → DriverEnvStep) (N : Nat) (c : Conn)
    (hfail : ∀ j, j < N → attempt_connection config idk (envs j) = .error ())
    (hsucc : attempt_connection config idk (envs N) = .ok c)
    (hd : ∀ i, (denvs i).attempt = attempt_connection config idk (envs i)) :
    get_connection_fuel config idk envs 0 (N + 1) =
      (List.replicate N (DriverEv.sleepSec 1), some c) ∧
    driver_run (N + 1) DriverState.connecting denvs =
      (DriverState.running,
        List.replicate N (DriverEv.sleepSec 1) ++ [DriverEv.enterRunning]) ∧
    (driver_run (N + 1) DriverState.connecting denvs).2.count
      DriverEv.enterRunning = 1 := by
  have h1 := get_connection_fuel_success config idk envs c N 0
    (fun j hj => by simpa using hfail j hj) (by simpa using hsucc)
  have h2 := driver_run_connect_phase N denvs c
    (fun j hj => (hd j).trans (hfail j hj)) ((hd N).trans hsucc)
  refine ⟨h1, h2, ?_⟩
  rw [h2]
  simp [List.count_append, List.count_replicate, List.count_singleton]

/-- Witness for C3: two failing attempts, then a successful plain
connection. -/
theorem claim_C3_witness :
    get_connection_fuel sampleConfig none sampleRetryEnvs 0 3 =
      (List.replicate 2 (DriverEv.sleepSec 1), some Conn.plain) ∧
    driver_run 3 DriverState.connecting sampleDriverEnvs =
      (DriverState.running,
        List.replicate 2 (DriverEv.sleepSec 1) ++ [DriverEv.enterRunning]) ∧
    (driver_run 3 DriverState.connecting sampleDriverEnvs).2.count
      DriverEv.enterRunning = 1 :=
  claim_C3 sampleConfig none sampleRetryEnvs sampleDriverEnvs 2 Conn.plain
    (by decide) (by decide) (fun _ => rfl)

/-- Claim C4: once the `Start` flow has entered `running`, the driver loop
has no terminal state — any number of steps from `connecting` or `running`
stays in those two states (so `entry` neither succeeds nor errors out of the
loop), and every end of the request loop leads back to `connecting`. -/
theorem claim_C4 (s : DriverState) (envs : Nat → DriverEnvStep) (n : Nat)
    (h : s = DriverState.connecting ∨ s = DriverState.running) :
    ((driver_run n s envs).1 = DriverState.connecting ∨
      (driver_run n s envs).1 = DriverState.running) ∧
    (∀ e, (driver_step DriverState.running e).1 = DriverState.connecting) := by
  refine ⟨?_, fun e => rfl⟩
  induction n generalizing s envs with
  | zero => simpa [driver_run] using h
  | succ n ih =>
    rw [driver_run_succ]
    apply ih
    rcases h with rfl | rfl
    · cases hatt : (envs 0).attempt <;> simp [driver_step, hatt]
    · exact Or.inl rfl

/-- The encrypt-then-attest phase emits no response write. -/
lemma keygen_encrypt_attest_no_write (env : EntryEnv) (kc : NitroKeygenConfig) :
    (keygen_encrypt_attest env kc).1.countP is_write_ev = 0 ∧
    ∀ s, Ev.write_response s ∉ (keygen_encrypt_attest env kc).1 := by
  simp only [keygen_encrypt_attest]
  cases h : keygen_kms_result env kc with
  | error e => simp [is_write_ev]
  | ok ct =>
    cases h2 : env.nsm_process_request (keygen_att_request env kc) <;>
      simp [is_write_ev]

/-- The keygen response envelope is a failure exactly when the KMS call
failed or the NSM returned a non-attestation response. -/
lemma keygen_response_failure_iff (env : EntryEnv) (kc : NitroKeygenConfig) :
    except_failed (keygen_encrypt_attest env kc).2 = true ↔
      except_failed (keygen_kms_result env kc) = true ∨
      env.nsm_process_request (keygen_att_request env kc) = NsmResponse.Other := by
  simp only [keygen_encrypt_attest]
  cases h : keygen_kms_result env kc with
  | error e => simp [except_failed]
  | ok ct =>
    cases h2 : env.nsm_process_request (keygen_att_request env kc) <;>
      simp [except_failed]

/-- On a decoded `Keygen` request, `entry`'s result is the keygen flow's. -/
lemma entry_snd_keygen (env : EntryEnv) (raw : Bytes) (kc : NitroKeygenConfig)
    (hread : env.read_payload = .ok raw)
    (hdec : env.decode raw = .ok (.Keygen kc)) :
    (entry env).2 = (keygen_flow env kc).2 := by
  simp only [entry, hread, hdec]
  split <;> rfl

/-- On a decoded `Keygen` request, `entry`'s trace is the keygen flow's,
possibly followed by the `nsm_exit` call. -/
lemma entry_fst_keygen (env : EntryEnv) (raw : Bytes) (kc : NitroKeygenConfig)
    (hread : env.read_payload = .ok raw)
    (hdec : env.decode raw = .ok (.Keygen kc)) :
    (entry env).1 = (keygen_flow env kc).1 ∨
    (entry env).1 = (keygen_flow env kc).1 ++ [Ev.nsm_exit_call] := by
  simp only [entry, hread, hdec]
  split
  · right; rfl
  · left; rfl

/-- Claim C2: in the keygen flow, whatever the sealing and attestation
oracles do, the generated private-key bytes are zeroized before any response
write and before the keygen arm returns: the trace always contains the
zeroize event, and no response write precedes it. -/
theorem claim_C2 (env : EntryEnv) (raw : Bytes) (kc : NitroKeygenConfig)
    (hread : env.read_payload = .ok raw)
    (hdec : env.decode raw = .ok (.Keygen kc)) :
    ∃ pre post, (entry env).1 = pre ++ Ev.zeroize_keypair :: post ∧
      ∀ s, Ev.write_response s ∉ pre := by
  have hkf : ∃ post, (keygen_flow env kc).1 =
      (keygen_encrypt_attest env kc).1 ++ Ev.zeroize_keypair :: post := by
    simp only [keygen_flow]
    cases hs : env.serialize_response (keygen_encrypt_attest env kc).2 with
    | error e => exact ⟨[], by simp⟩
    | ok json =>
      cases hw : env.write_payload_ok
      · exact ⟨[Ev.write_response json], by simp⟩
      · exact ⟨[Ev.write_response json], by simp⟩
  obtain ⟨post, hpost⟩ := hkf
  rcases entry_fst_keygen env raw kc hread hdec with h | h
  · exact ⟨(keygen_encrypt_attest env kc).1, post, by rw [h, hpost],
      fun s => (keygen_encrypt_attest_no_write env kc).2 s⟩
  · refine ⟨(keygen_encrypt_attest env kc).1, post ++ [Ev.nsm_exit_call], ?_,
      fun s => (keygen_encrypt_attest_no_write env kc).2 s⟩
    rw [h, hpost]
    simp

/-- Witness for C2 at a concrete all-succeeding environment. -/
theorem claim_C2_witness :
    ∃ pre post, (entry sampleEnv).1 = pre ++ Ev.zeroize_keypair :: post ∧
      ∀ s, Ev.write_response s ∉ pre :=
  claim_C2 sampleEnv [123] sampleKeygenConfig rfl rfl

/-- Claim C7: for every keygen request, `entry` writes exactly one framed
response envelope, that envelope is a failure exactly when the sealing
oracle failed or the attestation oracle returned an unexpected response
kind, and neither failure is fatal — the keygen arm still ends in `Ok`. -/
theorem claim_C7 (env : EntryEnv) (raw : Bytes) (kc : NitroKeygenConfig)
    (json : String)
    (hread : env.read_payload = .ok raw)
    (hdec : env.decode raw = .ok (.Keygen kc))
    (hser : env.serialize_response (keygen_encrypt_attest env kc).2 = .ok json)
    (hwrite : env.write_payload_ok = true) :
    (entry env).1.countP is_write_ev = 1 ∧
    Ev.write_response json ∈ (entry env).1 ∧
    (except_failed (keygen_encrypt_attest env kc).2 = true ↔
      except_failed (keygen_kms_result env kc) = true ∨
      env.nsm_process_request (keygen_att_request env kc) = NsmResponse.Other) ∧
    (entry env).2 = .returned (.ok ()) := by
  have hflow : keygen_flow env kc =
      ((keygen_encrypt_attest env kc).1 ++ [Ev.zeroize_keypair] ++
          [Ev.write_response json],
        .returned (.ok ())) := by
    simp only [keygen_flow, hser, hwrite, if_true]
  have hent : entry env =
      ((keygen_encrypt_attest env kc).1 ++ [Ev.zeroize_keypair] ++
          [Ev.write_response json] ++ [Ev.nsm_exit_call],
        .returned (.ok ())) := by
    simp only [entry, hread, hdec, hflow]
  refine ⟨?_, ?_, keygen_response_failure_iff env kc, by rw [hent]⟩
  · rw [hent]
    simp [List.countP_append, (keygen_encrypt_attest_no_write env kc).1,
      is_write_ev]
  · rw [hent]
    simp

/-- Witness for C7 at a concrete all-succeeding environment. -/
theorem claim_C7_witness :
    (entry sampleEnv).1.countP is_write_ev = 1 ∧
    Ev.write_response "resp" ∈ (entry sampleEnv).1 ∧
    (except_failed (keygen_encrypt_attest sampleEnv sampleKeygenConfig).2 = true ↔
      except_failed (keygen_kms_result sampleEnv sampleKeygenConfig) = true ∨
      sampleEnv.nsm_process_request
        (keygen_att_request sampleEnv sampleKeygenConfig) = NsmResponse.Other) ∧
    (entry sampleEnv).2 = .returned (.ok ()) :=
  claim_C7 sampleEnv [123] sampleKeygenConfig "resp" rfl rfl rfl rfl

/-- Claim C8: when both keygen oracles succeed, the success response carries
the generated key's 32-byte public key, the KMS ciphertext and the
attestation document, and the attestation request binds exactly the JSON
claim naming the base64 public key and base64 KMS key id. -/
theorem claim_C8 (env : EntryEnv) (raw : Bytes) (kc : NitroKeygenConfig)
    (ct doc : Bytes)
    (hread : env.read_payload = .ok raw)
    (hdec : env.decode raw = .ok (.Keygen kc))
    (hkms : keygen_kms_result env kc = .ok ct)
    (hnsm : env.nsm_process_request (keygen_att_request env kc) =
      .Attestation doc)
    (hpub : env.gen_keypair.public.length = 32) :
    (keygen_encrypt_attest env kc).2 =
      .ok { encrypted_secret := ct, public_key := env.gen_keypair.public,
            attestation_doc := doc } ∧
    env.gen_keypair.public.length = 32 ∧
    Ev.attestation_request (keygen_att_request env kc) ∈ (entry env).1 ∧
    (keygen_att_request env kc).user_data =
      some ("\x7b\"pubkey\":\"" ++ base64_string env.gen_keypair.public ++
        "\",\"key_id\":\"" ++ base64_string (string_utf8 kc.kms_key_id) ++
        "\"\x7d") := by
  have hstep : keygen_encrypt_attest env kc =
      ([Ev.kms_encrypt_call env.gen_keypair.secret,
        Ev.attestation_request (keygen_att_request env kc)],
        .ok { encrypted_secret := ct, public_key := env.gen_keypair.public,
              attestation_doc := doc }) := by
    simp only [keygen_encrypt_attest, hkms, hnsm]
  have hmem : Ev.attestation_request (keygen_att_request env kc) ∈
      (keygen_flow env kc).1 := by
    simp only [keygen_flow, hstep]
    split <;> (try split) <;> simp
  refine ⟨by rw [hstep], hpub, ?_, rfl⟩
  rcases entry_fst_keygen env raw kc hread hdec with h | h <;> rw [h] <;>
    simp [hmem]

/-- Witness for C8 at a concrete all-succeeding environment. -/
theorem claim_C8_witness :
    (keygen_encrypt_attest sampleEnv sampleKeygenConfig).2 =
      .ok { encrypted_secret := [7, 7],
            public_key := sampleEnv.gen_keypair.public,
            attestation_doc := [4, 2] } ∧
    sampleEnv.gen_keypair.public.length = 32 ∧
    Ev.attestation_request (keygen_att_request sampleEnv sampleKeygenConfig) ∈
      (entry sampleEnv).1 ∧
    (keygen_att_request sampleEnv sampleKeygenConfig).user_data =
      some ("\x7b\"pubkey\":\"" ++
        base64_string sampleEnv.gen_keypair.public ++ "\",\"key_id\":\"" ++
        base64_string (string_utf8 sampleKeygenConfig.kms_key_id) ++
        "\"\x7d") :=
  claim_C8 sampleEnv [123] sampleKeygenConfig [7, 7] [4, 2] rfl rfl rfl rfl
    (by decide)

/-- Witness for C4: five steps from `running` under always-failing attempts
and erroring sessions stay inside the loop. -/
theorem claim_C4_witness :
    ((driver_run 5 DriverState.running
        (fun _ => { attempt := .error (), sessionResult := .error "conn dropped" })).1 =
          DriverState.connecting ∨
      (driver_run 5 DriverState.running
        (fun _ => { attempt := .error (), sessionResult := .error "conn dropped" })).1 =
          DriverState.running) ∧
    (∀ e, (driver_step DriverState.running e).1 = DriverState.connecting) :=
  claim_C4 DriverState.running
    (fun _ => { attempt := .error (), sessionResult := .error "conn dropped" })
    5 (Or.inr rfl)

/-- The tail of the `Start` arm after unsealing produces only state-holder
I/O errors or entry into the driver; never an access or invalid-key error. -/
lemma start_after_unseal_snd (env : EntryEnv) (config : NitroConfig)
    (secret : Bytes) (idk : Option Bytes) (tr : List Ev) :
    (start_after_unseal env config secret idk tr).2 =
      .returned (.error (.ioError "failed get state connection")) ∨
    (start_after_unseal env config secret idk tr).2 =
      .returned (.error (.ioError "failed to load initial state")) ∨
    ∃ state, (start_after_unseal env config secret idk tr).2 =
      .entersDriver config idk secret state := by
  unfold start_after_unseal
  cases hsh : env.state_holder_new config.enclave_state_port with
  | error e => left; rfl
  | ok holder =>
    dsimp only
    cases hls : env.load_state holder with
    | error e => right; left; rfl
    | ok st => right; right; exact ⟨st, rfl⟩

/-- The tail of the `Start` arm never yields an access error. -/
lemma start_after_unseal_ne_access (env : EntryEnv) (config : NitroConfig)
    (secret : Bytes) (idk : Option Bytes) (tr : List Ev) :
    ¬ (start_after_unseal env config secret idk tr).2 =
      .returned (.error .accessError) := by
  rcases start_after_unseal_snd env config secret idk tr with h | h | ⟨st, h⟩ <;>
    rw [h] <;> simp

/-- The tail of the `Start` arm never yields an invalid-key error. -/
lemma start_after_unseal_ne_invalid (env : EntryEnv) (config : NitroConfig)
    (secret : Bytes) (idk : Option Bytes) (tr : List Ev) :
    ¬ (start_after_unseal env config secret idk tr).2 =
      .returned (.error .invalidKeyError) := by
  rcases start_after_unseal_snd env config secret idk tr with h | h | ⟨st, h⟩ <;>
    rw [h] <;> simp

/-- On a decoded `Start` request, `entry`'s result is the start flow's. -/
lemma entry_snd_start (env : EntryEnv) (raw : Bytes) (config : NitroConfig)
    (hread : env.read_payload = .ok raw)
    (hdec : env.decode raw = .ok (.Start config)) :
    (entry env).2 = (start_flow env config).2 := by
  simp only [entry, hread, hdec]
  split <;> rfl

/-- Claim C6: in the `Start` flow, unsealing fails with an access error
exactly when the KMS oracle call fails, and with an invalid-key error
exactly when the returned plaintext is not a valid 32-byte signing key;
both for the consensus key and for the optional identity key. -/
theorem claim_C6 (env : EntryEnv) (raw : Bytes) (config : NitroConfig)
    (hread : env.read_payload = .ok raw)
    (hdec : env.decode raw = .ok (.Start config)) :
    ((entry env).2 = .returned (.error .accessError) ↔
      decrypt_consensus env config = .error () ∨
      (∃ kb ct, decrypt_consensus env config = .ok kb ∧ kb.length = 32 ∧
        config.sealed_id_key = some ct ∧
        decrypt_id env config ct = .error ())) ∧
    ((entry env).2 = .returned (.error .invalidKeyError) ↔
      (∃ kb, decrypt_consensus env config = .ok kb ∧ kb.length ≠ 32) ∨
      (∃ kb ct idb, decrypt_consensus env config = .ok kb ∧ kb.length = 32 ∧
        config.sealed_id_key = some ct ∧ decrypt_id env config ct = .ok idb ∧
        idb.length ≠ 32)) := by
  rw [entry_snd_start env raw config hread hdec]
  simp only [start_flow]
  cases hc : decrypt_consensus env config with
  | error e =>
    cases e
    constructor <;> simp
  | ok kb =>
    dsimp only
    simp only [signing_key_try_from]
    by_cases hlen : kb.length = 32
    · rw [if_pos hlen]
      dsimp only
      cases hid : config.sealed_id_key with
      | none =>
        dsimp only
        constructor <;>
          simp [hlen, start_after_unseal_ne_access, start_after_unseal_ne_invalid]
      | some ciphertext =>
        dsimp only
        cases hdid : decrypt_id env config ciphertext with
        | error e' =>
          cases e'
          constructor <;> simp [hlen, hdid]
        | ok idb =>
          dsimp only
          by_cases hidlen : idb.length = 32
          · rw [if_pos hidlen]
            dsimp only
            constructor <;>
              simp [hlen, hidlen, hdid, start_after_unseal_ne_access,
                start_after_unseal_ne_invalid]
          · rw [if_neg hidlen]
            dsimp only
            constructor <;> simp [hlen, hidlen, hdid]
    · rw [if_neg hlen]
      dsimp only
      constructor <;> simp [hlen]

/-- Witness for C6 at a concrete `Start` environment whose unseals
succeed. -/
theorem claim_C6_witness :
    (((entry sampleEnvStart).2 = .returned (.error .accessError) ↔
      decrypt_consensus sampleEnvStart sampleConfig = .error () ∨
      (∃ kb ct, decrypt_consensus sampleEnvStart sampleConfig = .ok kb ∧
        kb.length = 32 ∧ sampleConfig.sealed_id_key = some ct ∧
        decrypt_id sampleEnvStart sampleConfig ct = .error ()))) ∧
    (((entry sampleEnvStart).2 = .returned (.error .invalidKeyError) ↔
      (∃ kb, decrypt_consensus sampleEnvStart sampleConfig = .ok kb ∧
        kb.length ≠ 32) ∨
      (∃ kb ct idb, decrypt_consensus sampleEnvStart sampleConfig = .ok kb ∧
        kb.length = 32 ∧ sampleConfig.sealed_id_key = some ct ∧
        decrypt_id sampleEnvStart sampleConfig ct = .ok idb ∧
        idb.length ≠ 32))) :=
  claim_C6 sampleEnvStart [123] sampleConfig rfl rfl

end Nitro
